import Mathlib

/-!
Verification development for the gh-stars-watcher monitoring core.

The Go source is shallowly embedded:
* `time.Time` and `time.Duration` values are modelled as `Int` nanoseconds
  (the zero `time.Time` is `0`, `t1.After t2` is `t2 < t1`, `t1.Sub t2` is
  `t1 - t2`);
* Go `int` counters are modelled as `Int`;
* fallible operations return `Except` / sum types;
* the remote GitHub star list is a pure `List Repository`, served to the
  pagination loops in pages of `perPage` elements, most recently starred
  first, exactly as the adapters deliver it.
-/

namespace StarsWatcher

/-- One nanosecond-denominated minute (`time.Minute`). -/
def minuteNs : Int := 60 * 1000000000

/-- One nanosecond-denominated hour (`time.Hour`). -/
def hourNs : Int := 3600 * 1000000000

/-- `storage.Repository` (internal/storage, part_018 lines 11-20).
`Private` is called `isPrivate` because `private` is reserved in Lean. -/
structure Repository where
  fullName : String
  description : String
  starCount : Int
  updatedAt : Int
  url : String
  starredAt : Int
  language : String
  isPrivate : Bool
deriving DecidableEq, Repr

/-- `storage.UserState` (part_018 lines 64-82). -/
structure UserState where
  username : String
  lastCheck : Int
  repositories : List Repository
  totalCount : Int
  stateVersion : String
  checkCount : Int
  lastStarredAt : Int
  lastFullSyncAt : Int
  incrementalEnabled : Bool
  fullSyncInterval : Int
  lastIncrementalAt : Int
  apiCallsSaved : Int
deriving DecidableEq, Repr

/-- ASCII letter or digit, the `[a-zA-Z0-9]` class of the Go patterns. -/
def isAlnumChar (c : Char) : Bool := c.isAlpha || c.isDigit

/-- Characters allowed in each half of a repository full name,
the `[a-zA-Z0-9_.-]` class of `githubRepoNamePattern`. -/
def repoNameChar (c : Char) : Bool := isAlnumChar c || c == '_' || c == '.' || c == '-'

/-- Split a character list at the first occurrence of `sep`; the second
component is `none` when `sep` does not occur. -/
def breakAtChar (sep : Char) : List Char → (List Char × Option (List Char))
  | [] => ([], none)
  | c :: cs =>
    if c == sep then ([], some cs)
    else
      let r := breakAtChar sep cs
      (c :: r.1, r.2)

/-- `githubRepoNamePattern = ^[a-zA-Z0-9_.-]+/[a-zA-Z0-9_.-]+$` (part_018
line 23).  Since `/` is not in the class, a match is exactly a split at the
unique `/` into two nonempty class-only halves. -/
def repoNameOk (s : String) : Bool :=
  match breakAtChar '/' s.toList with
  | (a, some b) => !a.isEmpty && !b.isEmpty && a.all repoNameChar && b.all repoNameChar
  | (_, none) => false

/-- `githubUsernamePattern = ^[a-zA-Z0-9]([a-zA-Z0-9-]{0,37}[a-zA-Z0-9])?$`
(part_018 line 85): one alphanumeric character, or an alphanumeric head and
tail with up to 37 alphanumeric-or-hyphen characters between them. -/
def usernameOk (s : String) : Bool :=
  match s.toList with
  | [] => false
  | c :: rest =>
    isAlnumChar c &&
      match rest.reverse with
      | [] => true
      | l :: mid =>
        decide (rest.length ≤ 38) && isAlnumChar l &&
          mid.all (fun d => isAlnumChar d || d == '-')

/-- A numeric semver group: digits only, no leading zero unless it is `0`. -/
def numericNoLeadZero : List Char → Bool
  | [] => false
  | [c] => c.isDigit
  | c :: rest => c.isDigit && !(c == '0') && rest.all Char.isDigit

/-- Characters allowed in prerelease/build identifiers, `[0-9A-Za-z-]`. -/
def semverIdChar (c : Char) : Bool := isAlnumChar c || c == '-'

/-- One prerelease identifier: nonempty, class-only, and purely numeric
identifiers must carry no leading zero. -/
def preIdOk (l : List Char) : Bool :=
  !l.isEmpty && l.all semverIdChar && (!(l.all Char.isDigit) || numericNoLeadZero l)

/-- One build identifier: nonempty and class-only. -/
def buildIdOk (l : List Char) : Bool := !l.isEmpty && l.all semverIdChar

/-- Split a character list on every occurrence of `sep`. -/
def splitOnChar (sep : Char) : List Char → List (List Char)
  | [] => [[]]
  | c :: cs =>
    let r := splitOnChar sep cs
    if c == sep then [] :: r
    else
      match r with
      | [] => [[c]]
      | g :: gs => (c :: g) :: gs

/-- `semanticVersionPattern` (part_018 line 88): `x.y.z` numeric core, an
optional `-prerelease` of dot-separated identifiers, an optional `+build`.
The numeric core contains only digits and dots, so the first `-` (before
any `+`) starts the prerelease and the first `+` starts the build data. -/
def semverOk (s : String) : Bool :=
  let bp := breakAtChar '+' s.toList
  let bm := breakAtChar '-' bp.1
  let coreOk :=
    match splitOnChar '.' bm.1 with
    | [a, b, c] => numericNoLeadZero a && numericNoLeadZero b && numericNoLeadZero c
    | _ => false
  let preOk :=
    match bm.2 with
    | none => true
    | some pre => (splitOnChar '.' pre).all preIdOk
  let buildOk :=
    match bp.2 with
    | none => true
    | some b => (splitOnChar '.' b).all buildIdOk
  coreOk && preOk && buildOk

/-- If `pat` is a literal head of `cs`, the remainder after it. -/
def remainderAfter : List Char → List Char → Option (List Char)
  | [], cs => some cs
  | _ :: _, [] => none
  | p :: ps, c :: cs => if p == c then remainderAfter ps cs else none

/-- The URL check of `Repository.Validate` (part_018 lines 33-44): an empty
URL is accepted, otherwise `url.Parse` must yield scheme `https` and host
`github.com`.  `url.Parse` is modelled for the host-immediately-after-scheme
URL shapes the repository stores: the text must continue
`https://github.com` and the host must end there (end of string or a
path/query/fragment delimiter). -/
def repoURLOk (u : String) : Bool :=
  u == "" ||
    match remainderAfter (String.toList ("https://github.com")) u.toList with
    | none => false
    | some [] => true
    | some (c :: _) => c == '/' || c == '?' || c == '#'

/-- `Repository.Validate` (part_018 lines 26-57) at wall-clock time `now`:
name pattern, URL shape, non-negative star count, non-future starred
timestamp. -/
def validateRepository (now : Int) (r : Repository) : Bool :=
  repoNameOk r.fullName && repoURLOk r.url &&
    decide (0 ≤ r.starCount) && decide (r.starredAt ≤ now)

/-- `UserState.Validate` (part_018 lines 91-149) at wall-clock time `now`.
Go reports the first failing check; the boolean conjunction of all checks is
equivalent for validity. -/
def validateUserState (now : Int) (u : UserState) : Bool :=
  usernameOk u.username &&
    decide (u.lastCheck ≤ now) &&
    (u.stateVersion == "" || semverOk u.stateVersion) &&
    decide (0 ≤ u.totalCount) &&
    decide (0 ≤ u.checkCount) &&
    u.repositories.all (validateRepository now) &&
    decide (0 ≤ u.fullSyncInterval) &&
    decide (0 ≤ u.apiCallsSaved) &&
    decide (u.lastStarredAt ≤ now + minuteNs) &&
    decide (u.lastFullSyncAt ≤ now + minuteNs) &&
    decide (u.lastIncrementalAt ≤ now + minuteNs)

/-- `storage.NewUserState` (part_018 lines 152-171). -/
def newUserState (username : String) : UserState :=
  { username := username
    lastCheck := 0
    repositories := []
    totalCount := 0
    stateVersion := "1.0.0"
    checkCount := 0
    lastStarredAt := 0
    lastFullSyncAt := 0
    incrementalEnabled := true
    fullSyncInterval := 24
    lastIncrementalAt := 0
    apiCallsSaved := 0 }

/-- `UserState.ShouldUseIncremental` (part_018 lines 174-177). -/
def shouldUseIncremental (u : UserState) : Bool :=
  u.incrementalEnabled && !(u.lastStarredAt == 0)

/-- `UserState.ShouldPerformFullSync` (part_018 lines 180-189) at time `now`. -/
def shouldPerformFullSync (now : Int) (u : UserState) : Bool :=
  u.lastFullSyncAt == 0 || u.fullSyncInterval == 0 ||
    decide (u.lastFullSyncAt + u.fullSyncInterval * hourNs < now)

/-- `UserState.GetMostRecentStarredAt` (part_018 lines 209-219) over the
state's repository list: the running maximum of `starredAt`, seeded with the
zero time. -/
def getMostRecentStarredAt (repos : List Repository) : Int :=
  repos.foldl (fun acc r => if acc < r.starredAt then r.starredAt else acc) 0

/-! ## Persistence layer (internal/storage/json.go) -/

/-- What a state file path can hold on disk.  `wellFormed` is a record that
JSON-decodes back to a `UserState` (encoding a valid state with
`encoding/json` and decoding it is lossless for this struct), `malformed`
is bytes `json.Unmarshal` rejects, `unreadable` is an `os.ReadFile`
failure. -/
inductive DiskCell where
  | absent
  | unreadable (msg : String)
  | wellFormed (s : UserState)
  | malformed (raw : String)
deriving DecidableEq, Repr

/-- The state file system: one `DiskCell` per file path. -/
def Disk : Type := String → DiskCell

/-- What `JSONStorage.LoadUserState` (json.go lines 75-105) can produce,
as consumed by the monitor service: the typed errors
`StateFileNotFoundError` and `StateCorruptionError` are distinguished from
any other read error. -/
inductive LoadResult where
  | ok (s : UserState)
  | notFound
  | corrupted (msg : String)
  | otherError (msg : String)
deriving DecidableEq, Repr

/-- `JSONStorage.LoadUserState` (json.go lines 75-105) on the disk cell at
the requested path, at wall-clock time `now`: a missing file is
`StateFileNotFoundError`, an unreadable file is a plain error, undecodable
bytes are `StateCorruptionError`, and a decoded state that fails
`Validate` is also `StateCorruptionError`. -/
def loadUserState (now : Int) (cell : DiskCell) : LoadResult :=
  match cell with
  | .absent => .notFound
  | .unreadable m => .otherError m
  | .malformed _ => .corrupted ("failed to parse JSON")
  | .wellFormed s =>
    if validateUserState now s then .ok s else .corrupted ("validation failed")

/-- `JSONStorage.SaveUserState` (json.go lines 19-72) at wall-clock time
`now`: an invalid state is rejected before anything touches the disk;
otherwise the state is written atomically at the path (temp file plus
rename), so the cell becomes exactly the encoded state. -/
def saveUserState (now : Int) (disk : Disk) (path : String) (s : UserState) :
    Except String Disk :=
  if validateUserState now s then
    .ok (fun k => if k = path then .wellFormed s else disk k)
  else
    .error ("invalid user state")

/-! ## Configuration (internal/config/config.go) -/

/-- `config.IncrementalConfig` (config.go lines 9-34).  Durations are `Int`
nanoseconds; `maxIncrementalPages` is a `Nat` because `Config.Validate`
forces it positive. -/
structure IncrementalConfig where
  enabled : Bool
  fullSyncInterval : Int
  fallbackOnError : Bool
  maxIncrementalPages : Nat
  detectUnstars : Bool
  detectReStars : Bool
  timestampTolerance : Int
deriving DecidableEq, Repr

/-- `config.RetryConfig` (config.go lines 37-55).  `maxRetries` is a `Nat`
because `Config.Validate` resets negative values to the default; the
float64 `BackoffMultiplier` is modelled as an exact rational. -/
structure RetryConfig where
  maxRetries : Nat
  initialDelay : Int
  maxDelay : Int
  backoffMultiplier : ℚ
  retryOnRateLimit : Bool
  rateLimitBuffer : Int
deriving DecidableEq, Repr

/-- The `Incremental` part of `config.DefaultConfig` (config.go lines
85-93). -/
def defaultIncrementalConfig : IncrementalConfig :=
  { enabled := true
    fullSyncInterval := 24
    fallbackOnError := true
    maxIncrementalPages := 10
    detectUnstars := true
    detectReStars := true
    timestampTolerance := minuteNs }

/-- The `Retry` part of `config.DefaultConfig` (config.go lines 94-101). -/
def defaultRetryConfig : RetryConfig :=
  { maxRetries := 3
    initialDelay := 1000000000
    maxDelay := 30000000000
    backoffMultiplier := 2
    retryOnRateLimit := true
    rateLimitBuffer := 30000000000 }

/-! ## Retry executor (internal/monitor/retry.go) -/

/-- `monitor.RetryableError` (retry.go lines 15-20).  `msg` is what
`Error()` returns, which is the wrapped error's own message. -/
structure RetryableError where
  msg : String
  isRateLimit : Bool
  retryAfter : Int
  isTemporary : Bool
deriving DecidableEq, Repr

/-- An error handed back by the retried operation: either already a
`*RetryableError` or a plain error carrying only its message. -/
inductive OpError where
  | wrapped (re : RetryableError)
  | plain (msg : String)
deriving DecidableEq, Repr

/-- The `Error()` text of an operation error. -/
def errMessage : OpError → String
  | .wrapped re => re.msg
  | .plain m => m

/-- Literal-head test on character lists. -/
def startsWithChars : List Char → List Char → Bool
  | [], _ => true
  | _ :: _, [] => false
  | p :: ps, c :: cs => p == c && startsWithChars ps cs

/-- `strings.Contains` on character lists. -/
def containsChars (pat : List Char) : List Char → Bool
  | [] => pat.isEmpty
  | c :: cs => startsWithChars pat (c :: cs) || containsChars pat cs

/-- Case-folded characters of a string (`strings.ToLower`; the patterns
searched for are ASCII). -/
def lowerChars (s : String) : List Char := s.toList.map Char.toLower

/-- The substrings `RetryManager.isTemporaryError` looks for
(retry.go lines 143-157). -/
def temporaryPatterns : List String :=
  ["connection reset", "connection refused", "timeout", "temporary failure",
   "network is unreachable", "no such host", "i/o timeout",
   "context deadline exceeded", "server error", "internal server error",
   "bad gateway", "service unavailable", "gateway timeout"]

/-- `RetryManager.isTemporaryError` (retry.go lines 135-166): the lowered
error text contains one of the known transient markers. -/
def isTemporaryError (m : String) : Bool :=
  temporaryPatterns.any (fun p => containsChars p.toList (lowerChars m))

/-- The classification step of `ExecuteWithRetry` (retry.go lines 77-84):
an error that is not a `*RetryableError` is wrapped with
`IsTemporary = isTemporaryError err`. -/
def classifyError : OpError → RetryableError
  | .wrapped re => re
  | .plain m =>
    { msg := m, isRateLimit := false, retryAfter := 0,
      isTemporary := isTemporaryError m }

/-- `RetryManager.calculateDelay` (retry.go lines 117-132): the
server-indicated reset plus buffer for rate limits, otherwise
`initialDelay * multiplier^attempt` (the float64 product truncated to a
`time.Duration`) capped at `maxDelay`.  No jitter is applied. -/
def calculateDelay (cfg : RetryConfig) (attempt : Nat) (re : RetryableError) : Int :=
  if re.isRateLimit = true ∧ 0 < re.retryAfter then
    re.retryAfter + cfg.rateLimitBuffer
  else if cfg.maxDelay < Int.floor ((cfg.initialDelay : ℚ) * cfg.backoffMultiplier ^ attempt) then
    cfg.maxDelay
  else
    Int.floor ((cfg.initialDelay : ℚ) * cfg.backoffMultiplier ^ attempt)

/-- The jitter arithmetic of `ErrorHandler.calculateBackoffDelay`
(errors.go lines 249-255), the one place the repository implements its
symmetric ±25% jitter: `jitter = delay/4` and an offset of
`jitter * 2 * (nonce mod 1000) / 1000` (the float quotient truncated back
to a `time.Duration`) where `nonce` is the wall clock in nanoseconds,
giving `delay - jitter + offset ∈ [0.75·delay, 1.25·delay)`. -/
def applyJitter25 (delay : Int) (nonce : Int) : Int :=
  let jitter := Int.tdiv delay 4
  delay - jitter + Int.tdiv (jitter * 2 * (nonce % 1000)) 1000

/-- The wrapped message of retry exhaustion (retry.go line 113). -/
def wrapAttemptsMsg (n : Nat) (last : String) : String :=
  "operation failed after " ++ toString n ++ " attempts, last error: " ++ last

/-- What one `ExecuteWithRetry` call did: how many times the operation was
invoked, and the returned value. -/
structure RetryOutcome where
  attemptsMade : Nat
  result : Except String Unit
deriving Repr

/-- The loop body of `RetryManager.ExecuteWithRetry` (retry.go lines
50-114).  `fuel` is `maxRetries - attempt`, so `fuel = 0` is the final
attempt; `ctxDone n` tells whether the context is cancelled when attempt
`n` is about to run (a cancellation during the backoff wait surfaces at the
next check, as in the `select`); `op n` is the error of the `n`-th
invocation, `none` meaning success.  The computed backoff delay does not
affect the returned value. -/
def retryLoop (cfg : RetryConfig) (ctxDone : Nat → Bool) (op : Nat → Option OpError) :
    Nat → Nat → Nat → RetryOutcome
  | fuel, attempt, made =>
    if ctxDone attempt then ⟨made, .error ("context canceled")⟩
    else
      match op attempt with
      | none => ⟨made + 1, .ok ()⟩
      | some e =>
        match fuel with
        | 0 => ⟨made + 1, .error (wrapAttemptsMsg (cfg.maxRetries + 1) (errMessage e))⟩
        | fuel2 + 1 =>
          let re := classifyError e
          if re.isTemporary = false ∧ re.isRateLimit = false then
            ⟨made + 1, .error (errMessage e)⟩
          else if re.isRateLimit = true ∧ cfg.retryOnRateLimit = false then
            ⟨made + 1, .error (errMessage e)⟩
          else
            retryLoop cfg ctxDone op fuel2 (attempt + 1) (made + 1)

/-- `RetryManager.ExecuteWithRetry` (retry.go lines 50-114). -/
def executeWithRetry (cfg : RetryConfig) (ctxDone : Nat → Bool)
    (op : Nat → Option OpError) : RetryOutcome :=
  retryLoop cfg ctxDone op cfg.maxRetries 0 0

/-! ## Monitor service (internal/monitor/service.go)

The remote star list is a pure `List Repository`, most recently starred
first (`sort=created, direction=desc`), served in pages of `perPage`
elements; `PageInfo.HasNext` is true exactly while elements remain. -/

/-- `reStarThreshold = 10 * time.Minute` (service.go lines 19-23). -/
def reStarThreshold : Int := 10 * minuteNs

/-- `opts.PerPage = 100` used by both fetch paths (service.go lines 309,
363). -/
def perPage : Nat := 100

/-- The pagination loop of `fetchAllStarredRepos` (service.go lines
304-350), which appends every page until `HasNext` is false.  The `fuel`
argument is an artifact bounding the page count; `fetchAllStarredRepos`
supplies more fuel than there are elements, and `fetchAll_eq_id` below
shows it is never exhausted. -/
def fetchAllLoop : Nat → List Repository → List Repository
  | 0, _ => []
  | fuel + 1, remote =>
    let page := remote.take perPage
    let rest := remote.drop perPage
    if rest.isEmpty then page else page ++ fetchAllLoop fuel rest

/-- `Service.fetchAllStarredRepos` (service.go lines 304-350). -/
def fetchAllStarredRepos (remote : List Repository) : List Repository :=
  fetchAllLoop (remote.length + 1) remote

/-- The inner repository scan of `fetchStarredReposIncremental`
(service.go lines 406-423): walk the page in order, stop at the first
repository whose `starredAt` is within `tol` of the running
`mostRecentStarredAt` (when that is non-zero), collect the rest and keep
the running maximum up to date.  Returns the collected repositories and
the updated running maximum. -/
def processPage (tol : Int) : Int → List Repository → List Repository × Int
  | mostRecent, [] => ([], mostRecent)
  | mostRecent, r :: rest =>
    if mostRecent ≠ 0 ∧ r.starredAt - mostRecent ≤ tol then ([], mostRecent)
    else
      let m2 := if mostRecent < r.starredAt then r.starredAt else mostRecent
      let t := processPage tol m2 rest
      (r :: t.1, t.2)

/-- The page loop of `fetchStarredReposIncremental` (service.go lines
373-457).  `fuel` is `MaxIncrementalPages - pagesProcessed`, matching the
guard at the top of the loop; after a productive full page with more data,
the rough API-calls-saved estimate accrues
`(previous TotalCount - collected) / perPage`. -/
def fetchIncrLoop (tol : Int) (prevTotal : Int) :
    Nat → List Repository → Int → List Repository → Int →
    List Repository × Int
  | 0, _, _, acc, saved => (acc, saved)
  | fuel + 1, remote, mostRecent, acc, saved =>
    let page := remote.take perPage
    let rest := remote.drop perPage
    let t := processPage tol mostRecent page
    let acc2 := acc ++ t.1
    if t.1.isEmpty then (acc2, saved)
    else if page.length < perPage then (acc2, saved)
    else if rest.isEmpty then (acc2, saved)
    else
      let saved2 :=
        if (acc2.length : Int) < prevTotal then
          saved + Int.tdiv (prevTotal - (acc2.length : Int)) (perPage : Int)
        else saved
      fetchIncrLoop tol prevTotal fuel rest t.2 acc2 saved2

/-- `Service.fetchStarredReposIncremental` (service.go lines 352-461):
returns the newly collected repositories and the estimated API calls
saved.  The running comparison timestamp starts at the previous state's
`LastStarredAt`. -/
def fetchStarredReposIncremental (cfgI : IncrementalConfig) (prev : UserState)
    (remote : List Repository) : List Repository × Int :=
  fetchIncrLoop cfgI.timestampTolerance prev.totalCount
    cfgI.maxIncrementalPages remote prev.lastStarredAt [] 0

/-- The record whose `FullName` was written last into a Go
`map[string]Repository` filled in list order. -/
def lastByName (l : List Repository) (n : String) : Option Repository :=
  l.reverse.find? (fun r => r.fullName == n)

/-- The comparator of `mergeRepositories`'s `sort.Slice` (service.go lines
514-519): most recently starred first, ties by ascending full name. -/
def repoBefore (a b : Repository) : Bool :=
  decide (b.starredAt < a.starredAt ∨
    (a.starredAt = b.starredAt ∧ a.fullName ≤ b.fullName))

/-- Insertion step of the sort used to model `sort.Slice`. -/
def insertSorted (r : Repository) : List Repository → List Repository
  | [] => [r]
  | x :: xs => if repoBefore r x then r :: x :: xs else x :: insertSorted r xs

/-- Sorting by `repoBefore`.  The comparator is a strict total order on the
distinct-key records coming out of the map, so any correct sort — the
unstable `sort.Slice` included — produces this list. -/
def sortReposByStarredAt (l : List Repository) : List Repository :=
  l.foldr insertSorted []

/-- `Service.mergeRepositories` (service.go lines 497-522): a map keyed by
`FullName` filled with the existing then the new repositories (new data
wins), whose values are then sorted most recently starred first. -/
def mergeRepositories (existing newRepos : List Repository) : List Repository :=
  let combined := existing ++ newRepos
  let names := (combined.map (fun r => r.fullName)).dedup
  sortReposByStarredAt (names.filterMap (lastByName combined))

/-- `Service.hasRepositoryChanged` (service.go lines 631-638). -/
def hasRepositoryChanged (p c : Repository) : Bool :=
  p.description != c.description || p.starCount != c.starCount ||
    p.language != c.language || p.isPrivate != c.isPrivate ||
    p.updatedAt != c.updatedAt

/-- `monitor.RepositoryChanges` (service.go lines 524-531). -/
structure RepositoryChanges where
  newStars : List Repository
  unstars : List Repository
  reStars : List Repository
  updated : List Repository
  totalChanges : Nat
deriving DecidableEq, Repr

/-- The re-star guard of `findRepositoryChanges` (service.go line 567):
re-star detection enabled, timestamps differ, and the current one is
later. -/
def reStarCondB (cfgI : IncrementalConfig) (p c : Repository) : Bool :=
  cfgI.detectReStars && decide (c.starredAt ≠ p.starredAt) &&
    decide (p.starredAt < c.starredAt)

/-- The per-current-repository loop of `findRepositoryChanges` (service.go
lines 555-583), producing `(NewStars, Updated, ReStars)` in iteration
order: an unknown name is a new star; a known name contributes to
`Updated` on any metadata change, and, when re-star detection fires, to
`NewStars` past the threshold and to `ReStars` otherwise. -/
def classifyLoop (cfgI : IncrementalConfig) (prevFind : String → Option Repository) :
    List Repository → List Repository × List Repository × List Repository
  | [] => ([], [], [])
  | c :: rest =>
    let t := classifyLoop cfgI prevFind rest
    match prevFind c.fullName with
    | none => (c :: t.1, t.2.1, t.2.2)
    | some p =>
      let upd := if hasRepositoryChanged p c then c :: t.2.1 else t.2.1
      if reStarCondB cfgI p c then
        if decide (reStarThreshold < c.starredAt - p.starredAt) then
          (c :: t.1, upd, t.2.2)
        else
          (t.1, upd, c :: t.2.2)
      else (t.1, upd, t.2.2)

/-- `Service.findRepositoryChanges` (service.go lines 534-596). -/
def findRepositoryChanges (cfgI : IncrementalConfig)
    (previous current : List Repository) : RepositoryChanges :=
  let prevFind := lastByName previous
  let currFind := lastByName current
  let t := classifyLoop cfgI prevFind current
  let uns :=
    if cfgI.detectUnstars then
      previous.filter (fun p => (currFind p.fullName).isNone)
    else []
  { newStars := t.1
    unstars := uns
    reStars := t.2.2
    updated := t.2.1
    totalChanges := t.1.length + uns.length + t.2.2.length + t.2.1.length }

/-- `Service.fetchStarredReposWithFallback` (service.go lines 464-495)
over pure remote data (on which a fetch cannot fail, so the
fallback-on-error branch is not exercised): incremental fetch merged with
the previous repositories when the planner allows it, otherwise a full
fetch.  Returns the repository list, the API-calls-saved estimate and the
`isFullSync` flag. -/
def fetchStarredReposWithFallback (cfgI : IncrementalConfig) (now : Int)
    (prev : UserState) (remote : List Repository) :
    List Repository × Int × Bool :=
  if cfgI.enabled = true ∧ shouldUseIncremental prev = true ∧
      shouldPerformFullSync now prev = false then
    let t := fetchStarredReposIncremental cfgI prev remote
    (mergeRepositories prev.repositories t.1, t.2, false)
  else
    (fetchAllStarredRepos remote, 0, true)

/-- `Service.loadPreviousState` (service.go lines 265-284) together with
`migrateStateToIncrementalFields` (lines 287-301): not-found and
corruption both give a fresh `NewUserState`, corruption additionally
logging a warning (the returned `Bool`); any other load error is
propagated.  A successfully loaded old-format state is migrated to the
incremental defaults. -/
def loadPreviousState (username : String) (r : LoadResult) :
    Except String (UserState × Bool) :=
  match r with
  | .ok s =>
    if s.incrementalEnabled = false ∧ s.fullSyncInterval = 0 then
      .ok ({ s with incrementalEnabled := true, fullSyncInterval := 24 }, false)
    else
      .ok (s, false)
  | .notFound => .ok (newUserState username, false)
  | .corrupted _ => .ok (newUserState username, true)
  | .otherError m => .error m

/-- The state construction and bookkeeping of `MonitorUser` (service.go
lines 191-230): copy the previous incremental settings, bump the check
counter, stamp the full-sync or incremental timestamp
(`UpdateFullSyncTimestamp` / `UpdateIncrementalTimestamp`, each
`Update...Timestamp` accumulating `apiCallsSaved`), then advance
`LastStarredAt` to the most recent merged timestamp when strictly later
(`UpdateLastStarredAt`, which accumulates `apiCallsSaved` again). -/
def updateStateAfterFetch (now : Int) (prev : UserState)
    (currentRepos : List Repository) (saved : Int) (isFullSync : Bool) :
    UserState :=
  let st : UserState :=
    { username := prev.username
      lastCheck := now
      repositories := currentRepos
      totalCount := (currentRepos.length : Int)
      stateVersion := "1.0.0"
      checkCount := prev.checkCount + 1
      lastStarredAt := prev.lastStarredAt
      lastFullSyncAt := prev.lastFullSyncAt
      incrementalEnabled := prev.incrementalEnabled
      fullSyncInterval := prev.fullSyncInterval
      lastIncrementalAt := prev.lastIncrementalAt
      apiCallsSaved := prev.apiCallsSaved }
  let st :=
    if isFullSync then { st with lastFullSyncAt := now }
    else { st with lastIncrementalAt := now, apiCallsSaved := st.apiCallsSaved + saved }
  if currentRepos.isEmpty then st
  else
    let mostRecent := getMostRecentStarredAt currentRepos
    if st.lastStarredAt < mostRecent then
      { st with lastStarredAt := mostRecent, apiCallsSaved := st.apiCallsSaved + saved }
    else st

/-- `monitor.MonitorResult` (service.go lines 640-652), without the
rate-limit snapshot (transport metadata not modelled). -/
structure MonitorResult where
  username : String
  changes : RepositoryChanges
  totalRepositories : Nat
  previousCheck : Int
  currentCheck : Int
  isFirstRun : Bool
  isFullSync : Bool
  apiCallsSaved : Int
  incrementalEnabled : Bool
deriving DecidableEq, Repr

/-- `Service.MonitorUser` (service.go lines 153-262) for one cycle at time
`now`, over pure remote data (so credential lookup, user validation and
fetch errors — which abort the cycle before any state is touched — do not
arise): load or synthesize the previous state, fetch with the planner,
diff, build the updated state and persist it; a save failure aborts the
cycle. -/
def monitorUserModel (cfgI : IncrementalConfig) (now : Int)
    (username path : String) (disk : Disk) (remote : List Repository) :
    Except String (MonitorResult × Disk) :=
  match loadPreviousState username (loadUserState now (disk path)) with
  | .error e => .error ("failed to load previous state: " ++ e)
  | .ok (prev, _warned) =>
    let f := fetchStarredReposWithFallback cfgI now prev remote
    let currentRepos := f.1
    let saved := f.2.1
    let isFullSync := f.2.2
    let changes := findRepositoryChanges cfgI prev.repositories currentRepos
    let updated := updateStateAfterFetch now prev currentRepos saved isFullSync
    match saveUserState now disk path updated with
    | .error e => .error ("failed to save state: " ++ e)
    | .ok disk2 =>
      .ok ({ username := username
             changes := changes
             totalRepositories := currentRepos.length
             previousCheck := prev.lastCheck
             currentCheck := updated.lastCheck
             isFirstRun := prev.checkCount == 0
             isFullSync := isFullSync
             apiCallsSaved := saved
             incrementalEnabled := updated.incrementalEnabled }, disk2)

/-! ## Helper lemmas -/

/-- The full-fetch pagination concatenates the whole remote list: the fuel
bound of `fetchAllLoop` is never exhausted once it exceeds the number of
elements. -/
theorem fetchAllLoop_eq_of_le (fuel : Nat) (remote : List Repository)
    (h : remote.length ≤ fuel) : fetchAllLoop fuel remote = remote := by
  induction fuel generalizing remote with
  | zero =>
    have : remote = [] := List.eq_nil_of_length_eq_zero (Nat.le_zero.mp h)
    simp [this, fetchAllLoop]
  | succ fuel ih =>
    simp only [fetchAllLoop]
    by_cases hrest : (remote.drop perPage).isEmpty
    · simp only [hrest, if_true]
      have hlen : remote.length ≤ perPage := by
        have := List.isEmpty_iff.mp hrest
        have := congrArg List.length this
        simp at this
        omega
      exact List.take_of_length_le hlen
    · simp only [hrest, if_false]
      have hgt : perPage < remote.length := by
        rcases Nat.lt_or_ge perPage remote.length with hlt | hge
        · exact hlt
        · exfalso
          apply hrest
          apply List.isEmpty_iff.mpr
          apply List.eq_nil_of_length_eq_zero
          simp
          omega
      have hdrop : (remote.drop perPage).length ≤ fuel := by
        have hp : perPage = 100 := rfl
        simp
        omega
      rw [ih _ hdrop]
      exact List.take_append_drop perPage remote

/-- `fetchAllStarredRepos` returns exactly the remote list. -/
theorem fetchAllStarredRepos_eq (remote : List Repository) :
    fetchAllStarredRepos remote = remote :=
  fetchAllLoop_eq_of_le _ _ (by omega)

/-- Classification predicate for the `NewStars` bucket of one current
repository: its name is unknown, or re-star detection fires past the
threshold. -/
def isNewStarP (cfgI : IncrementalConfig) (f : String → Option Repository)
    (c : Repository) : Bool :=
  match f c.fullName with
  | none => true
  | some p => reStarCondB cfgI p c && decide (reStarThreshold < c.starredAt - p.starredAt)

/-- Classification predicate for the `ReStars` bucket: re-star detection
fires at or below the threshold. -/
def isReStarP (cfgI : IncrementalConfig) (f : String → Option Repository)
    (c : Repository) : Bool :=
  match f c.fullName with
  | none => false
  | some p => reStarCondB cfgI p c && !decide (reStarThreshold < c.starredAt - p.starredAt)

/-- Classification predicate for the `Updated` bucket: the name is known
and some metadata field changed. -/
def isUpdatedP (f : String → Option Repository) (c : Repository) : Bool :=
  match f c.fullName with
  | none => false
  | some p => hasRepositoryChanged p c

/-- Each current repository lands in the buckets of `classifyLoop`
according to predicates of that repository alone, so the three produced
lists are filters of the current list. -/
theorem classifyLoop_eq (cfgI : IncrementalConfig)
    (f : String → Option Repository) (l : List Repository) :
    classifyLoop cfgI f l =
      (l.filter (isNewStarP cfgI f), l.filter (isUpdatedP f),
        l.filter (isReStarP cfgI f)) := by
  induction l with
  | nil => rfl
  | cons c rest ih =>
    simp only [classifyLoop, ih, List.filter_cons]
    cases h : f c.fullName with
    | none =>
      simp [isNewStarP, isUpdatedP, isReStarP, h]
    | some p =>
      by_cases hr : reStarCondB cfgI p c = true
      · by_cases ht : reStarThreshold < c.starredAt - p.starredAt
        · simp [isNewStarP, isUpdatedP, isReStarP, h, hr, ht]
        · simp [isNewStarP, isUpdatedP, isReStarP, h, hr, ht]
      · simp [isNewStarP, isUpdatedP, isReStarP, h, hr]

/-- A repository present in a list is found by `lastByName` for its own
name. -/
theorem lastByName_isSome_of_mem {l : List Repository} {r : Repository}
    (h : r ∈ l) : (lastByName l r.fullName).isSome = true := by
  unfold lastByName
  rw [List.find?_isSome]
  exact ⟨r, List.mem_reverse.mpr h, by simp⟩

/-- `Repository.Validate` is monotone in the wall clock: a repository
valid now is valid at any later instant. -/
theorem validateRepository_mono {now now2 : Int} (h : now ≤ now2)
    {r : Repository} (hv : validateRepository now r = true) :
    validateRepository now2 r = true := by
  simp only [validateRepository, Bool.and_eq_true, decide_eq_true_eq] at hv ⊢
  exact ⟨⟨⟨hv.1.1.1, hv.1.1.2⟩, hv.1.2⟩, le_trans hv.2 h⟩

/-- `UserState.Validate` is monotone in the wall clock. -/
theorem validateUserState_mono {now now2 : Int} (h : now ≤ now2)
    {u : UserState} (hv : validateUserState now u = true) :
    validateUserState now2 u = true := by
  simp only [validateUserState, Bool.and_eq_true, decide_eq_true_eq,
    List.all_eq_true] at hv ⊢
  obtain ⟨⟨⟨⟨⟨⟨⟨⟨⟨⟨h1, h2⟩, h3⟩, h4⟩, h5⟩, h6⟩, h7⟩, h8⟩, h9⟩, h10⟩, h11⟩ := hv
  refine ⟨⟨⟨⟨⟨⟨⟨⟨⟨⟨h1, le_trans h2 h⟩, h3⟩, h4⟩, h5⟩, ?_⟩, h7⟩, h8⟩,
    le_trans h9 (by omega)⟩, le_trans h10 (by omega)⟩, le_trans h11 (by omega)⟩
  intro r hr
  exact validateRepository_mono h (h6 r hr)

/-- The running maximum of `GetMostRecentStarredAt` stays below any upper
bound of the accumulator and of every starred timestamp. -/
theorem getMostRecentStarredAt_le {now : Int} (repos : List Repository)
    (h0 : 0 ≤ now) (h : ∀ r ∈ repos, r.starredAt ≤ now) :
    getMostRecentStarredAt repos ≤ now := by
  unfold getMostRecentStarredAt
  suffices haux : ∀ (l : List Repository) (acc : Int), acc ≤ now →
      (∀ r ∈ l, r.starredAt ≤ now) →
      l.foldl (fun acc r => if acc < r.starredAt then r.starredAt else acc) acc ≤ now by
    exact haux repos 0 h0 h
  intro l
  induction l with
  | nil => intro acc hacc _; simpa using hacc
  | cons r rest ih =>
    intro acc hacc hall
    simp only [List.foldl_cons]
    by_cases hlt : acc < r.starredAt
    · simp only [hlt, if_true]
      exact ih _ (hall r (by simp)) (fun x hx => hall x (by simp [hx]))
    · simp only [hlt, if_false]
      exact ih _ hacc (fun x hx => hall x (by simp [hx]))

/-! ## Claims about the change classifier -/

/-- The `NewStars` and `ReStars` buckets as filters of the current list. -/
theorem findRepositoryChanges_newStars (cfgI : IncrementalConfig)
    (previous current : List Repository) :
    (findRepositoryChanges cfgI previous current).newStars =
      current.filter (isNewStarP cfgI (lastByName previous)) := by
  simp [findRepositoryChanges, classifyLoop_eq]

/-- The `ReStars` bucket as a filter of the current list. -/
theorem findRepositoryChanges_reStars (cfgI : IncrementalConfig)
    (previous current : List Repository) :
    (findRepositoryChanges cfgI previous current).reStars =
      current.filter (isReStarP cfgI (lastByName previous)) := by
  simp [findRepositoryChanges, classifyLoop_eq]

/-- The `Updated` bucket as a filter of the current list. -/
theorem findRepositoryChanges_updated (cfgI : IncrementalConfig)
    (previous current : List Repository) :
    (findRepositoryChanges cfgI previous current).updated =
      current.filter (isUpdatedP (lastByName previous)) := by
  simp [findRepositoryChanges, classifyLoop_eq]

/-- C3 (amended): for an item present in both sets with re-add detection
enabled and an advanced recency timestamp, an advance strictly greater
than the 10-minute threshold classifies it as Added (and not Re-added),
while an advance of at most the threshold — the exact threshold value
included — classifies it as Re-added (and not Added).  The tie-break at
exactly the threshold goes to Re-added, because the code requires
`timeDiff > reStarThreshold` strictly for the Added reclassification. -/
theorem restar_threshold_boundary (cfgI : IncrementalConfig)
    (previous current : List Repository) (p c : Repository)
    (hdet : cfgI.detectReStars = true)
    (hp : lastByName previous c.fullName = some p)
    (hc : c ∈ current)
    (hlt : p.starredAt < c.starredAt) :
    (reStarThreshold < c.starredAt - p.starredAt →
      c ∈ (findRepositoryChanges cfgI previous current).newStars ∧
        c ∉ (findRepositoryChanges cfgI previous current).reStars) ∧
    (c.starredAt - p.starredAt ≤ reStarThreshold →
      c ∈ (findRepositoryChanges cfgI previous current).reStars ∧
        c ∉ (findRepositoryChanges cfgI previous current).newStars) := by
  have hcond : reStarCondB cfgI p c = true := by
    simp only [reStarCondB, hdet, Bool.true_and, Bool.and_eq_true,
      decide_eq_true_eq]
    exact ⟨by omega, hlt⟩
  constructor
  · intro ht
    constructor
    · rw [findRepositoryChanges_newStars, List.mem_filter]
      refine ⟨hc, ?_⟩
      simp [isNewStarP, hp, hcond, ht]
    · rw [findRepositoryChanges_reStars, List.mem_filter]
      rintro ⟨-, hpred⟩
      simp [isReStarP, hp, hcond, ht] at hpred
  · intro ht
    have hnt : ¬ reStarThreshold < c.starredAt - p.starredAt := by omega
    constructor
    · rw [findRepositoryChanges_reStars, List.mem_filter]
      refine ⟨hc, ?_⟩
      simp [isReStarP, hp, hcond, hnt]
    · rw [findRepositoryChanges_newStars, List.mem_filter]
      rintro ⟨-, hpred⟩
      simp [isNewStarP, hp, hcond, hnt] at hpred

/-- Previous-state record used by the threshold-boundary examples. -/
def prevC3 : Repository :=
  { fullName := "octo/x", description := "d", starCount := 1, updatedAt := 0,
    url := "", starredAt := 1000000000000, language := "", isPrivate := false }

/-- The same repository re-observed with its starred timestamp advanced by
exactly the 10-minute threshold. -/
def currC3 : Repository := { prevC3 with starredAt := prevC3.starredAt + reStarThreshold }

/-- The same repository with its starred timestamp advanced by one
nanosecond more than the threshold. -/
def currC3above : Repository :=
  { prevC3 with starredAt := prevC3.starredAt + reStarThreshold + 1 }

/-- C3 counterexample: a timestamp advance of exactly the threshold is
classified Re-added, not Added as the claim states. -/
theorem restar_exact_threshold_counterexample :
    currC3.starredAt - prevC3.starredAt = reStarThreshold ∧
    currC3 ∈ (findRepositoryChanges defaultIncrementalConfig [prevC3] [currC3]).reStars ∧
    currC3 ∉ (findRepositoryChanges defaultIncrementalConfig [prevC3] [currC3]).newStars := by
  decide

/-- C3 witness: one nanosecond above the threshold is Added, exactly at
the threshold is Re-added. -/
theorem restar_threshold_boundary_witness :
    currC3above ∈ (findRepositoryChanges defaultIncrementalConfig [prevC3] [currC3above]).newStars ∧
    currC3 ∈ (findRepositoryChanges defaultIncrementalConfig [prevC3] [currC3]).reStars := by
  constructor
  · exact ((restar_threshold_boundary defaultIncrementalConfig [prevC3] [currC3above]
      prevC3 currC3above (by decide) (by decide) (by decide) (by decide)).1
      (by decide)).1
  · exact ((restar_threshold_boundary defaultIncrementalConfig [prevC3] [currC3]
      prevC3 currC3 (by decide) (by decide) (by decide) (by decide)).2
      (by decide)).1

/-- C4 (amended): the total change count is the sum of the four bucket
sizes, and the Added, Removed and Re-added buckets are pairwise disjoint —
in particular an item reclassified from Re-added into Added by the
threshold is in Added only — and Updated never meets Removed; but Updated
is not disjoint from Added or Re-added: an item with both a metadata
change and a timestamp advance is listed in Updated as well (see the
counterexample), and the total counts it in each list it appears in. -/
theorem changeset_buckets (cfgI : IncrementalConfig)
    (previous current : List Repository) :
    (findRepositoryChanges cfgI previous current).totalChanges =
      (findRepositoryChanges cfgI previous current).newStars.length +
      (findRepositoryChanges cfgI previous current).unstars.length +
      (findRepositoryChanges cfgI previous current).reStars.length +
      (findRepositoryChanges cfgI previous current).updated.length ∧
    (∀ r, r ∈ (findRepositoryChanges cfgI previous current).newStars →
      r ∉ (findRepositoryChanges cfgI previous current).reStars) ∧
    (∀ r, r ∈ (findRepositoryChanges cfgI previous current).newStars →
      r ∉ (findRepositoryChanges cfgI previous current).unstars) ∧
    (∀ r, r ∈ (findRepositoryChanges cfgI previous current).reStars →
      r ∉ (findRepositoryChanges cfgI previous current).unstars) ∧
    (∀ r, r ∈ (findRepositoryChanges cfgI previous current).updated →
      r ∉ (findRepositoryChanges cfgI previous current).unstars) := by
  have huns : ∀ r, r ∈ (findRepositoryChanges cfgI previous current).unstars →
      (lastByName current r.fullName).isNone = true := by
    intro r hr
    simp only [findRepositoryChanges] at hr
    by_cases hd : cfgI.detectUnstars = true
    · simp only [hd, if_true] at hr
      exact (List.mem_filter.mp hr).2
    · simp only [Bool.not_eq_true] at hd
      simp [hd] at hr
  have hcurr : ∀ r : Repository, r ∈ current →
      ¬ (lastByName current r.fullName).isNone = true := by
    intro r hr hnone
    have := lastByName_isSome_of_mem hr
    rw [Option.isNone_iff_eq_none] at hnone
    rw [hnone] at this
    simp at this
  refine ⟨rfl, ?_, ?_, ?_, ?_⟩
  · intro r hns hrs
    rw [findRepositoryChanges_newStars, List.mem_filter] at hns
    rw [findRepositoryChanges_reStars, List.mem_filter] at hrs
    have h1 := hns.2
    have h2 := hrs.2
    unfold isNewStarP at h1
    unfold isReStarP at h2
    cases h : lastByName previous r.fullName with
    | none => rw [h] at h2; simp at h2
    | some p =>
      rw [h] at h1 h2
      simp only [Bool.and_eq_true] at h1 h2
      rw [h1.2] at h2
      simp at h2
  · intro r hns huns2
    rw [findRepositoryChanges_newStars, List.mem_filter] at hns
    exact hcurr r hns.1 (huns r huns2)
  · intro r hrs huns2
    rw [findRepositoryChanges_reStars, List.mem_filter] at hrs
    exact hcurr r hrs.1 (huns r huns2)
  · intro r hup huns2
    rw [findRepositoryChanges_updated, List.mem_filter] at hup
    exact hcurr r hup.1 (huns r huns2)

/-- A record whose metadata and starred timestamp both changed within the
threshold, exercising the Updated/Re-added overlap. -/
def currC4 : Repository :=
  { prevC3 with description := "changed", starredAt := prevC3.starredAt + 5 * minuteNs }

/-- C4 counterexample: one item with a metadata change and a small
timestamp advance appears in both Updated and Re-added, so the four lists
are not pairwise disjoint, and the total counts it twice. -/
theorem changeset_buckets_counterexample :
    currC4 ∈ (findRepositoryChanges defaultIncrementalConfig [prevC3] [currC4]).updated ∧
    currC4 ∈ (findRepositoryChanges defaultIncrementalConfig [prevC3] [currC4]).reStars ∧
    (findRepositoryChanges defaultIncrementalConfig [prevC3] [currC4]).totalChanges = 2 := by
  decide

/-- C4 witness: the bucket laws at a concrete diff, deriving that the
threshold-reclassified record `currC3above` is not double-counted in
Re-added. -/
theorem changeset_buckets_witness :
    (findRepositoryChanges defaultIncrementalConfig [prevC3] [currC3above]).totalChanges =
      (findRepositoryChanges defaultIncrementalConfig [prevC3] [currC3above]).newStars.length +
      (findRepositoryChanges defaultIncrementalConfig [prevC3] [currC3above]).unstars.length +
      (findRepositoryChanges defaultIncrementalConfig [prevC3] [currC3above]).reStars.length +
      (findRepositoryChanges defaultIncrementalConfig [prevC3] [currC3above]).updated.length ∧
    currC3above ∉ (findRepositoryChanges defaultIncrementalConfig [prevC3] [currC3above]).reStars := by
  refine ⟨(changeset_buckets defaultIncrementalConfig [prevC3] [currC3above]).1, ?_⟩
  exact (changeset_buckets defaultIncrementalConfig [prevC3] [currC3above]).2.1
    currC3above (by decide)

/-! ## Claims about the retry executor -/

/-- With an uncancelled context and an operation failing with a retryable
error at every attempt, the retry loop runs every remaining attempt and
returns the wrapped exhaustion error built from the last failure. -/
theorem retryLoop_exhausts (cfg : RetryConfig) (ctxDone : Nat → Bool)
    (op : Nat → Option OpError) (es : Nat → OpError)
    (hctx : ∀ n, ctxDone n = false)
    (hop : ∀ n, op n = some (es n))
    (htr : ∀ n, (classifyError (es n)).isTemporary = true ∨
      (classifyError (es n)).isRateLimit = true)
    (hrl : ∀ n, (classifyError (es n)).isRateLimit = true →
      cfg.retryOnRateLimit = true) :
    ∀ fuel attempt made, retryLoop cfg ctxDone op fuel attempt made =
      ⟨made + fuel + 1,
        .error (wrapAttemptsMsg (cfg.maxRetries + 1) (errMessage (es (attempt + fuel))))⟩ := by
  intro fuel
  induction fuel with
  | zero =>
    intro attempt made
    simp [retryLoop, hctx attempt, hop attempt]
  | succ fuel ih =>
    intro attempt made
    rw [retryLoop]
    rw [hctx attempt, hop attempt]
    simp only [Bool.false_eq_true, if_false]
    have hnot1 : ¬ ((classifyError (es attempt)).isTemporary = false ∧
        (classifyError (es attempt)).isRateLimit = false) := by
      rcases htr attempt with h | h
      · intro hcon; rw [hcon.1] at h; exact Bool.false_ne_true h
      · intro hcon; rw [hcon.2] at h; exact Bool.false_ne_true h
    have hnot2 : ¬ ((classifyError (es attempt)).isRateLimit = true ∧
        cfg.retryOnRateLimit = false) := by
      intro hcon
      have := hrl attempt hcon.1
      rw [hcon.2] at this
      exact Bool.false_ne_true this
    rw [if_neg hnot1, if_neg hnot2, ih (attempt + 1) (made + 1)]
    have h1 : made + 1 + fuel + 1 = made + (fuel + 1) + 1 := by omega
    have h2 : attempt + 1 + fuel = attempt + (fuel + 1) := by omega
    rw [h1, h2]

/-- C5: an operation that always fails with a transient (retryable) error
is attempted exactly `maxRetries + 1` times by `ExecuteWithRetry`, after
which the last error is returned wrapped with attempt-count context
("operation failed after N attempts, last error: ..."). -/
theorem executeWithRetry_exhaustion (cfg : RetryConfig) (ctxDone : Nat → Bool)
    (op : Nat → Option OpError) (es : Nat → OpError)
    (hctx : ∀ n, ctxDone n = false)
    (hop : ∀ n, op n = some (es n))
    (htr : ∀ n, (classifyError (es n)).isTemporary = true ∨
      (classifyError (es n)).isRateLimit = true)
    (hrl : ∀ n, (classifyError (es n)).isRateLimit = true →
      cfg.retryOnRateLimit = true) :
    (executeWithRetry cfg ctxDone op).attemptsMade = cfg.maxRetries + 1 ∧
    (executeWithRetry cfg ctxDone op).result =
      .error (wrapAttemptsMsg (cfg.maxRetries + 1) (errMessage (es cfg.maxRetries))) := by
  have h := retryLoop_exhausts cfg ctxDone op es hctx hop htr hrl cfg.maxRetries 0 0
  unfold executeWithRetry
  rw [h]
  constructor
  · show 0 + cfg.maxRetries + 1 = cfg.maxRetries + 1
    omega
  · show Except.error
        (wrapAttemptsMsg (cfg.maxRetries + 1) (errMessage (es (0 + cfg.maxRetries)))) = _
    rw [Nat.zero_add]

/-- C5 witness: the default configuration (three retries) against an
operation that always fails with a plain "timeout" error makes exactly
four attempts and reports the wrapped exhaustion error. -/
theorem executeWithRetry_exhaustion_witness :
    (executeWithRetry defaultRetryConfig (fun _ => false)
      (fun _ => some (.plain ("timeout")))).attemptsMade = 4 ∧
    (executeWithRetry defaultRetryConfig (fun _ => false)
      (fun _ => some (.plain ("timeout")))).result =
      .error ("operation failed after 4 attempts, last error: timeout") := by
  have h := executeWithRetry_exhaustion defaultRetryConfig (fun _ => false)
    (fun _ => some (.plain ("timeout"))) (fun _ => .plain ("timeout"))
    (fun _ => rfl) (fun _ => rfl)
    (fun _ => Or.inl (show (classifyError (OpError.plain ("timeout"))).isTemporary = true
      by decide))
    (fun _ hc =>
      absurd hc (show ¬ (classifyError (OpError.plain ("timeout"))).isRateLimit = true
        by decide))
  refine ⟨h.1, ?_⟩
  rw [h.2]
  rfl

/-- C6 (amended): for a transient non-rate-limit error, the delay before
the next attempt equals `initialDelay * multiplier^attempt` (the float
product truncated to a duration) capped at `maxDelay`, with no jitter
applied: the returned value is deterministic and coincides with the centre
of the claimed ±25% jitter band, so it always lies inside that band. -/
theorem calculateDelay_backoff (cfg : RetryConfig) (attempt : Nat)
    (re : RetryableError) (hre : re.isRateLimit = false)
    (h0 : 0 ≤ cfg.initialDelay) (h1 : 1 ≤ cfg.backoffMultiplier)
    (hm : 0 ≤ cfg.maxDelay) :
    calculateDelay cfg attempt re =
      min (Int.floor ((cfg.initialDelay : ℚ) * cfg.backoffMultiplier ^ attempt)) cfg.maxDelay ∧
    3 * min (Int.floor ((cfg.initialDelay : ℚ) * cfg.backoffMultiplier ^ attempt)) cfg.maxDelay ≤
      4 * calculateDelay cfg attempt re ∧
    4 * calculateDelay cfg attempt re ≤
      5 * min (Int.floor ((cfg.initialDelay : ℚ) * cfg.backoffMultiplier ^ attempt)) cfg.maxDelay := by
  have heq : calculateDelay cfg attempt re =
      min (Int.floor ((cfg.initialDelay : ℚ) * cfg.backoffMultiplier ^ attempt)) cfg.maxDelay := by
    unfold calculateDelay
    rw [if_neg (by intro hcon; rw [hre] at hcon; exact Bool.false_ne_true hcon.1)]
    rcases le_or_lt (Int.floor ((cfg.initialDelay : ℚ) * cfg.backoffMultiplier ^ attempt))
        cfg.maxDelay with hle | hlt
    · rw [if_neg (not_lt.mpr hle), min_eq_left hle]
    · rw [if_pos hlt, min_eq_right (le_of_lt hlt)]
  have hpos : 0 ≤ min (Int.floor ((cfg.initialDelay : ℚ) * cfg.backoffMultiplier ^ attempt)) cfg.maxDelay := by
    apply le_min
    · rw [Int.le_floor]
      push_cast
      exact mul_nonneg (by exact_mod_cast h0)
        (pow_nonneg (le_trans zero_le_one h1) attempt)
    · exact hm
  refine ⟨heq, ?_, ?_⟩
  · rw [heq]; omega
  · rw [heq]; omega

/-- A sample transient error for the delay computations. -/
def transientErrSample : RetryableError :=
  { msg := "timeout", isRateLimit := false, retryAfter := 0, isTemporary := true }

/-- C6 counterexample: with the default configuration at attempt 1 the
code returns exactly the un-jittered centre 2s, whereas the repository's
own ±25% symmetric jitter arithmetic (errors.go) would return 1.5s at a
clock draw of 0 and 2.499s at a draw of 999 — values the deterministic
`calculateDelay` can never produce, so no jitter is applied. -/
theorem calculateDelay_jitter_counterexample :
    calculateDelay defaultRetryConfig 1 transientErrSample = 2000000000 ∧
    applyJitter25 2000000000 0 = 1500000000 ∧
    applyJitter25 2000000000 999 = 2499000000 ∧
    (1500000000 : Int) ≠ 2000000000 ∧ (2499000000 : Int) ≠ 2000000000 := by
  refine ⟨?_, by decide, by decide, by decide, by decide⟩
  unfold calculateDelay
  rw [if_neg (show ¬ (transientErrSample.isRateLimit = true ∧ 0 < transientErrSample.retryAfter)
    by decide)]
  rw [show ((defaultRetryConfig.initialDelay : ℚ) *
      defaultRetryConfig.backoffMultiplier ^ (1 : ℕ)) = ((2000000000 : ℤ) : ℚ)
    from by norm_num [defaultRetryConfig]]
  rw [Int.floor_intCast]
  norm_num [defaultRetryConfig]

/-- C6 witness: the deterministic capped-backoff law at the default
configuration, attempt 2: the delay is exactly 4s. -/
theorem calculateDelay_backoff_witness :
    calculateDelay defaultRetryConfig 2 transientErrSample = 4000000000 := by
  have h := (calculateDelay_backoff defaultRetryConfig 2 transientErrSample
    (by decide) (by decide) (by norm_num [defaultRetryConfig]) (by decide)).1
  rw [h]
  rw [show ((defaultRetryConfig.initialDelay : ℚ) *
      defaultRetryConfig.backoffMultiplier ^ (2 : ℕ)) = ((4000000000 : ℤ) : ℚ)
    from by norm_num [defaultRetryConfig]]
  rw [Int.floor_intCast]
  rw [min_eq_left (by norm_num [defaultRetryConfig])]

/-! ## Claims about state loading and persistence -/

/-- C7: loading prior state maps a not-found result to a fresh empty
initial state with no warning, a corrupted result to a fresh empty initial
state with a warning (the `Bool` component), and the cycle continues in
both cases; any other load error aborts the whole cycle. -/
theorem loadPreviousState_recovery (u : String) (now : Int) :
    loadPreviousState u (loadUserState now DiskCell.absent) =
      .ok (newUserState u, false) ∧
    (∀ raw, loadPreviousState u (loadUserState now (DiskCell.malformed raw)) =
      .ok (newUserState u, true)) ∧
    (newUserState u).repositories = [] ∧
    (newUserState u).checkCount = 0 ∧
    (newUserState u).lastStarredAt = 0 ∧
    (∀ m cfgI path remote,
      monitorUserModel cfgI now u path (fun _ => DiskCell.unreadable m) remote =
        .error ("failed to load previous state: " ++ m)) :=
  ⟨rfl, fun _ => rfl, rfl, rfl, rfl, fun _ _ _ _ => rfl⟩

/-- C8: saving a valid state and loading it back — at the same or any
later wall-clock instant — returns the state unchanged, field for field. -/
theorem save_load_roundtrip (now now2 : Int) (disk : Disk) (path : String)
    (s : UserState) (hv : validateUserState now s = true) (hle : now ≤ now2) :
    ∃ disk2, saveUserState now disk path s = .ok disk2 ∧
      loadUserState now2 (disk2 path) = .ok s := by
  refine ⟨fun k => if k = path then .wellFormed s else disk k, ?_, ?_⟩
  · simp [saveUserState, hv]
  · simp [loadUserState, validateUserState_mono hle hv]

/-- A valid sample state with one repository, used as a round-trip
witness input. -/
def sampleState : UserState :=
  { username := "octocat"
    lastCheck := 1000000000000
    repositories :=
      [{ fullName := "octo/repo", description := "d", starCount := 5,
         updatedAt := 0, url := "https://github.com/octo/repo",
         starredAt := 999000000000, language := "Go", isPrivate := false }]
    totalCount := 1
    stateVersion := "1.0.0"
    checkCount := 2
    lastStarredAt := 999000000000
    lastFullSyncAt := 1000000000000
    incrementalEnabled := true
    fullSyncInterval := 24
    lastIncrementalAt := 0
    apiCallsSaved := 3 }

/-- The empty file system. -/
def emptyDisk : Disk := fun _ => DiskCell.absent

/-- C8 witness: the round trip at a concrete valid state and concrete
times. -/
theorem save_load_roundtrip_witness :
    ∃ disk2, saveUserState 1000000000000 emptyDisk ("state.json") sampleState =
        .ok disk2 ∧
      loadUserState 1000000000001 (disk2 ("state.json")) = .ok sampleState :=
  save_load_roundtrip 1000000000000 1000000000001 emptyDisk ("state.json")
    sampleState (by decide) (by decide)

/-- C9: the persistence layer preserves the state invariants at both
ends — `SaveUserState` rejects (and writes nothing: no disk is produced)
any state failing `Validate`, and `LoadUserState` never returns a state
failing `Validate`; an invalid on-disk record surfaces as a corruption
error instead. -/
theorem storage_preserves_invariants :
    (∀ (now : Int) (disk : Disk) (path : String) (s : UserState),
      validateUserState now s = false →
        saveUserState now disk path s = .error ("invalid user state")) ∧
    (∀ (now : Int) (cell : DiskCell) (s : UserState),
      loadUserState now cell = .ok s → validateUserState now s = true) ∧
    (∀ (now : Int) (s : UserState), validateUserState now s = false →
      loadUserState now (DiskCell.wellFormed s) =
        .corrupted ("validation failed")) := by
  refine ⟨?_, ?_, ?_⟩
  · intro now disk path s h
    simp [saveUserState, h]
  · intro now cell s h
    cases cell with
    | absent => simp [loadUserState] at h
    | unreadable m => simp [loadUserState] at h
    | malformed raw => simp [loadUserState] at h
    | wellFormed s0 =>
      by_cases hv : validateUserState now s0 = true
      · simp only [loadUserState, hv, if_true, LoadResult.ok.injEq] at h
        rw [← h]
        exact hv
      · simp [loadUserState, hv] at h
  · intro now s h
    simp [loadUserState, h]

/-- An invalid state: its check counter is negative. -/
def badState : UserState := { sampleState with checkCount := -1 }

/-- C9 witness: the invalid concrete state is rejected by save and
reported as corruption by load, and a valid loaded state validates. -/
theorem storage_preserves_invariants_witness :
    saveUserState 1000000000000 emptyDisk ("state.json") badState =
      .error ("invalid user state") ∧
    loadUserState 1000000000000 (DiskCell.wellFormed badState) =
      .corrupted ("validation failed") ∧
    validateUserState 1000000000000 sampleState = true := by
  refine ⟨?_, ?_, ?_⟩
  · exact storage_preserves_invariants.1 1000000000000 emptyDisk ("state.json")
      badState (by decide)
  · exact storage_preserves_invariants.2.2 1000000000000 badState (by decide)
  · exact storage_preserves_invariants.2.1 1000000000000
      (DiskCell.wellFormed sampleState) sampleState (by decide)

/-- C10: across the state update of a successful cycle the persisted
most-recent-seen starred timestamp never decreases: it is carried forward
from the previous state and replaced exactly when the maximum starred
timestamp of the merged repository list is strictly later. -/
theorem lastStarredAt_monotone (now : Int) (prev : UserState)
    (currentRepos : List Repository) (saved : Int) (isFullSync : Bool) :
    prev.lastStarredAt ≤
      (updateStateAfterFetch now prev currentRepos saved isFullSync).lastStarredAt ∧
    ((updateStateAfterFetch now prev currentRepos saved isFullSync).lastStarredAt =
        prev.lastStarredAt ∨
      ((updateStateAfterFetch now prev currentRepos saved isFullSync).lastStarredAt =
          getMostRecentStarredAt currentRepos ∧
        prev.lastStarredAt < getMostRecentStarredAt currentRepos)) := by
  have hproj : (updateStateAfterFetch now prev currentRepos saved isFullSync).lastStarredAt =
      if currentRepos.isEmpty = false ∧
          prev.lastStarredAt < getMostRecentStarredAt currentRepos then
        getMostRecentStarredAt currentRepos
      else prev.lastStarredAt := by
    unfold updateStateAfterFetch
    cases isFullSync <;>
      by_cases he : currentRepos.isEmpty <;>
        by_cases hlt : prev.lastStarredAt < getMostRecentStarredAt currentRepos <;>
          simp [he, hlt]
  rw [hproj]
  by_cases hcond : currentRepos.isEmpty = false ∧
      prev.lastStarredAt < getMostRecentStarredAt currentRepos
  · rw [if_pos hcond]
    exact ⟨le_of_lt hcond.2, Or.inr ⟨rfl, hcond.2⟩⟩
  · rw [if_neg hcond]
    exact ⟨le_refl _, Or.inl rfl⟩

/-! ## Claims about the fetch planner and the full cycle -/

/-- Diffing against an empty previous set marks every current repository
as a new star and leaves the other buckets empty. -/
theorem findRepositoryChanges_nil_prev (cfgI : IncrementalConfig)
    (current : List Repository) :
    findRepositoryChanges cfgI [] current =
      { newStars := current, unstars := [], reStars := [], updated := [],
        totalChanges := current.length } := by
  simp only [findRepositoryChanges, classifyLoop_eq]
  have h1 : current.filter (isNewStarP cfgI (lastByName [])) = current :=
    List.filter_eq_self.mpr (fun a _ => by simp [isNewStarP, lastByName])
  have h2 : current.filter (isUpdatedP (lastByName [])) = [] :=
    List.filter_eq_nil_iff.mpr (fun a _ => by simp [isUpdatedP, lastByName])
  have h3 : current.filter (isReStarP cfgI (lastByName [])) = [] :=
    List.filter_eq_nil_iff.mpr (fun a _ => by simp [isReStarP, lastByName])
  simp [h1, h2, h3]

/-- An already-known repository of the C1 scenario, starred at the base
instant. -/
def repoC1A : Repository :=
  { fullName := "u/a", description := "", starCount := 1, updatedAt := 0,
    url := "", starredAt := 1000000000000000, language := "", isPrivate := false }

/-- A new repository starred 20 minutes after the recorded threshold. -/
def repoC1B : Repository :=
  { repoC1A with
    fullName := "u/b"
    starredAt := repoC1A.starredAt + 20 * minuteNs }

/-- A second new repository starred 15 minutes after the recorded
threshold — newer than the threshold, older than `repoC1B`. -/
def repoC1C : Repository :=
  { repoC1A with
    fullName := "u/c"
    starredAt := repoC1A.starredAt + 15 * minuteNs }

/-- The prior state of the C1 scenario: non-zero `LastStarredAt` equal to
`repoC1A`'s starred instant, incremental mode on, a recent full sync. -/
def prevStateC1 : UserState :=
  { username := "u", lastCheck := repoC1A.starredAt,
    repositories := [repoC1A], totalCount := 1, stateVersion := "1.0.0",
    checkCount := 1, lastStarredAt := repoC1A.starredAt,
    lastFullSyncAt := repoC1A.starredAt, incrementalEnabled := true,
    fullSyncInterval := 24, lastIncrementalAt := 0, apiCallsSaved := 0 }

/-- The remote data of the C1 scenario, most recently starred first. -/
def remoteC1 : List Repository := [repoC1B, repoC1C, repoC1A]

/-- The wall clock of the C1 scenario, two hours past the base instant
(so the 24-hour full-sync interval has not elapsed). -/
def nowC1 : Int := repoC1A.starredAt + 2 * hourNs

/-- C1: evidence that the incremental early-exit is wrong on the code.
At this input the planner takes the incremental path, yet the incremental
cycle's added set is only `u/b` while the full fetch's added set is
`u/b, u/c`: the item `u/c`, 15 minutes newer than the recorded threshold
(with a one-minute tolerance), is missed, because the scan compares each
page item against a running maximum that has already advanced to `u/b`'s
timestamp instead of against the stored threshold. -/
theorem incremental_misses_newer_item :
    (defaultIncrementalConfig.enabled = true ∧
      shouldUseIncremental prevStateC1 = true ∧
      shouldPerformFullSync nowC1 prevStateC1 = false) ∧
    prevStateC1.lastStarredAt < repoC1C.starredAt ∧
    repoC1C.starredAt - prevStateC1.lastStarredAt = 15 * minuteNs ∧
    defaultIncrementalConfig.timestampTolerance = minuteNs ∧
    ((findRepositoryChanges defaultIncrementalConfig prevStateC1.repositories
        (fetchStarredReposWithFallback defaultIncrementalConfig nowC1 prevStateC1
          remoteC1).1).newStars.map (fun r => r.fullName)) = ["u/b"] ∧
    ((findRepositoryChanges defaultIncrementalConfig prevStateC1.repositories
        (fetchAllStarredRepos remoteC1)).newStars.map (fun r => r.fullName)) =
      ["u/b", "u/c"] := by
  refine ⟨by decide, by decide, by decide, by decide, by decide, ?_⟩
  rw [fetchAllStarredRepos_eq]
  decide

/-- The three-repository remote of the first-run scenario. -/
def remoteC2 : List Repository :=
  [{ fullName := "octo/one", description := "d1", starCount := 1, updatedAt := 0,
     url := "", starredAt := 1500000000000, language := "", isPrivate := false },
   { fullName := "octo/two", description := "d2", starCount := 2, updatedAt := 0,
     url := "", starredAt := 1400000000000, language := "", isPrivate := false },
   { fullName := "octo/three", description := "d3", starCount := 3, updatedAt := 0,
     url := "", starredAt := 1300000000000, language := "", isPrivate := false }]

/-- The wall clock of the first-run scenario. -/
def nowC2 : Int := 2000000000000

/-- Check-count and repository-count of a persisted state cell, for
closed-form evaluation of a cycle's persisted output. -/
def persistedSummary (cell : DiskCell) : Option (Int × Nat) :=
  match cell with
  | .wellFormed st => some (st.checkCount, st.repositories.length)
  | _ => none

/-- C2 counterexample: on a first run over a 3-item remote the cycle
result has `isFirstRun = true` but its ChangeSet reports 3 added items —
not zero as the claim states — while the persisted state does hold all 3
items with a check count of 1. -/
theorem monitorUser_first_run_counterexample :
    (monitorUserModel defaultIncrementalConfig nowC2 ("octocat") ("p")
        emptyDisk remoteC2).toOption.map
      (fun pr => (pr.1.isFirstRun, pr.1.changes.newStars.length,
        persistedSummary (pr.2 ("p")))) = some (true, 3, some (1, 3)) := by
  decide

/-- C2 (amended): on a first run (no prior state) where the remote
returns 3 items, the cycle result reports `isFirstRun = true` and a
ChangeSet whose added list contains exactly the 3 remote items (the
other three buckets empty) — the baseline is reported through the result
object, and only the CLI rendering suppresses it — and the persisted
state contains all 3 items with a check counter of 1. -/
theorem monitorUser_first_run (cfgI : IncrementalConfig) (now : Int)
    (u path : String) (disk : Disk) (remote : List Repository)
    (hu : usernameOk u = true) (hn : 0 ≤ now)
    (hd : disk path = DiskCell.absent)
    (hr : ∀ r ∈ remote, validateRepository now r = true)
    (hlen : remote.length = 3) :
    ∃ res disk2 st,
      monitorUserModel cfgI now u path disk remote = .ok (res, disk2) ∧
      res.isFirstRun = true ∧
      res.changes.newStars = remote ∧
      res.changes.newStars.length = 3 ∧
      res.changes.unstars = [] ∧ res.changes.reStars = [] ∧
      res.changes.updated = [] ∧
      res.totalRepositories = 3 ∧
      disk2 path = DiskCell.wellFormed st ∧
      st.checkCount = 1 ∧ st.repositories = remote := by
  have hstars : ∀ r ∈ remote, r.starredAt ≤ now := by
    intro r hrm
    have h := hr r hrm
    simp only [validateRepository, Bool.and_eq_true, decide_eq_true_eq] at h
    exact h.2
  have hupd : updateStateAfterFetch now (newUserState u) remote 0 true =
      { username := u, lastCheck := now, repositories := remote,
        totalCount := (remote.length : Int), stateVersion := "1.0.0",
        checkCount := 1,
        lastStarredAt :=
          if remote.isEmpty = false ∧ 0 < getMostRecentStarredAt remote then
            getMostRecentStarredAt remote
          else 0,
        lastFullSyncAt := now, incrementalEnabled := true,
        fullSyncInterval := 24, lastIncrementalAt := 0, apiCallsSaved := 0 } := by
    unfold updateStateAfterFetch newUserState
    by_cases he : remote.isEmpty <;>
      by_cases hlt : (0 : Int) < getMostRecentStarredAt remote <;>
        simp [he, hlt]
  have hvalid : validateUserState now (updateStateAfterFetch now (newUserState u) remote 0 true) = true := by
    rw [hupd]
    simp only [validateUserState, Bool.and_eq_true, Bool.or_eq_true,
      decide_eq_true_eq, List.all_eq_true]
    have hminute : (0 : Int) ≤ minuteNs := by decide
    refine ⟨⟨⟨⟨⟨⟨⟨⟨⟨⟨hu, le_refl now⟩, Or.inr (by decide)⟩,
      Int.natCast_nonneg _⟩, by omega⟩, fun r hrm => hr r hrm⟩, by omega⟩,
      le_refl _⟩, ?_⟩, by omega⟩, by omega⟩
    by_cases hcond : remote.isEmpty = false ∧ 0 < getMostRecentStarredAt remote
    · rw [if_pos hcond]
      have := getMostRecentStarredAt_le remote hn hstars
      omega
    · rw [if_neg hcond]
      omega
  have hfetch : fetchStarredReposWithFallback cfgI now (newUserState u) remote =
      (remote, 0, true) := by
    unfold fetchStarredReposWithFallback
    rw [if_neg (fun hcon => absurd hcon.2.1
      (by simp [shouldUseIncremental, newUserState]))]
    rw [fetchAllStarredRepos_eq]
  have hmain : monitorUserModel cfgI now u path disk remote =
      .ok ({ username := u
             changes := findRepositoryChanges cfgI [] remote
             totalRepositories := remote.length
             previousCheck := 0
             currentCheck :=
               (updateStateAfterFetch now (newUserState u) remote 0 true).lastCheck
             isFirstRun := true
             isFullSync := true
             apiCallsSaved := 0
             incrementalEnabled :=
               (updateStateAfterFetch now (newUserState u) remote 0 true).incrementalEnabled },
           fun k => if k = path then
             DiskCell.wellFormed (updateStateAfterFetch now (newUserState u) remote 0 true)
           else disk k) := by
    unfold monitorUserModel
    rw [hd]
    simp only [loadUserState, loadPreviousState, hfetch]
    unfold saveUserState
    rw [if_pos hvalid]
    rfl
  have hcheck : (updateStateAfterFetch now (newUserState u) remote 0 true).lastCheck = now := by
    rw [hupd]
  have hpersist : (fun k => if k = path then
      DiskCell.wellFormed (updateStateAfterFetch now (newUserState u) remote 0 true)
      else disk k) path =
      DiskCell.wellFormed (updateStateAfterFetch now (newUserState u) remote 0 true) :=
    if_pos rfl
  refine ⟨_, _, updateStateAfterFetch now (newUserState u) remote 0 true, hmain,
    rfl, ?_, ?_, ?_, ?_, ?_, ?_, hpersist, ?_, ?_⟩
  · rw [findRepositoryChanges_nil_prev]
  · rw [findRepositoryChanges_nil_prev]
    exact hlen
  · rw [findRepositoryChanges_nil_prev]
  · rw [findRepositoryChanges_nil_prev]
  · rw [findRepositoryChanges_nil_prev]
  · exact hlen
  · rw [hupd]
  · rw [hupd]

/-- C2 witness: the amended first-run law at the concrete 3-item remote. -/
theorem monitorUser_first_run_witness :
    ∃ res disk2 st,
      monitorUserModel defaultIncrementalConfig nowC2 ("octocat") ("p")
        emptyDisk remoteC2 = .ok (res, disk2) ∧
      res.isFirstRun = true ∧
      res.changes.newStars = remoteC2 ∧
      res.changes.newStars.length = 3 ∧
      res.changes.unstars = [] ∧ res.changes.reStars = [] ∧
      res.changes.updated = [] ∧
      res.totalRepositories = 3 ∧
      disk2 ("p") = DiskCell.wellFormed st ∧
      st.checkCount = 1 ∧ st.repositories = remoteC2 :=
  monitorUser_first_run defaultIncrementalConfig nowC2 ("octocat") ("p")
    emptyDisk remoteC2 (by decide) (by decide) rfl (by decide) (by decide)

end StarsWatcher
